import Mathlib

/-!
Verification of the client-side session lifecycle manager
(`frontend/src/utils/sessionManager.ts`) of the learn_path repository.

The manager keeps one serialized `SessionData` record in `localStorage`
under a fixed key, enforces a 15-minute inactivity timeout, renews the
deadline on observed activity, polls for expiry with a self-rescheduling
one-shot timer, and can notify the host through a registered callback.

Shallow embedding conventions:
  * time is `Nat` milliseconds since epoch; every operation takes the
    wall-clock instant `now` at which it runs (all `Date.now()` calls
    inside one synchronous operation observe the same instant, matching
    the run-to-completion scheduling of the host environment);
  * the stored string is modelled by the observable classes of payloads:
    the empty string (falsy, early return in `getSession`), a payload on
    which `JSON.parse` + field access succeed (an object, with each field
    possibly `undefined`), and a payload whose parse or field access
    throws (caught by the `try/catch`);
  * JavaScript values that the core treats opaquely (the `user` field)
    are modelled by `JSVal` together with JavaScript truthiness;
  * the pending `setTimeout` is modelled by its absolute fire deadline;
    invoking the registered `onSessionExpired` callback is modelled by
    incrementing a counter.
-/

namespace SessionMgr

/-- A JavaScript value, as far as the session core observes it: the
`user` payload is opaque, but `session?.user || null` tests truthiness. -/
inductive JSVal where
  | vnull
  | vundef
  | vbool (b : Bool)
  | vnum (n : Int)
  | vstr (s : String)
  | vobj (id : Nat)
deriving DecidableEq, Repr

/-- JavaScript truthiness of a `JSVal` (`x || null` keeps `x` iff truthy). -/
def truthy : JSVal → Bool
  | .vnull => false
  | .vundef => false
  | .vbool b => b
  | .vnum n => n != 0
  | .vstr s => s != ""
  | .vobj _ => true

/-- Result of `JSON.parse` on a stored payload that parses to an
object-like value: each `SessionData` field is present (`some`) or
`undefined` (`none`).  Mirrors `interface SessionData` of the source,
which JavaScript does not validate on read. -/
structure ParsedSession where
  user : JSVal
  loginTime : Option Nat
  lastActivity : Option Nat
  expiresAt : Option Nat
deriving DecidableEq, Repr

/-- The string stored under the session key, classified by how
`getSession` observes it: the empty string is falsy (`!sessionStr`
early-returns `null` without purging), `parsed d` is any payload whose
parse and field access succeed, and `unparseable` is any payload whose
`JSON.parse` (or subsequent field access) throws into the `catch`. -/
inductive StoredPayload where
  | emptyStr
  | parsed (d : ParsedSession)
  | unparseable
deriving DecidableEq, Repr

/-- Constant `TIMEOUT_DURATION = 15 * 60 * 1000` — 15 minutes in milliseconds. -/
def TIMEOUT_DURATION : Nat := 15 * 60 * 1000

/-- The poll interval of `startActivityTimer`: `setTimeout(..., 60000)`. -/
def checkInterval : Nat := 60000

/-- State of the `SessionManager` singleton together with its storage:
the stored payload (`none` when the key is absent), the absolute
deadline of the pending one-shot timer (`none` when no timer is
pending), and how many times `onSessionExpired` has been invoked. -/
structure MgrState where
  store : Option StoredPayload
  timer : Option Nat
  expiredCount : Nat
deriving DecidableEq, Repr

/-- The initial state: empty storage, no timer, no callback invocations. -/
def initState : MgrState := { store := none, timer := none, expiredCount := 0 }

/-- Source `stopActivityTimer()`: `clearTimeout` on the pending timer. -/
def stopActivityTimer (s : MgrState) : MgrState := { s with timer := none }

/-- Source `startActivityTimer()` scheduling part: cancel any pending check and
schedule the next one-shot check `checkInterval` from `now`. -/
def startActivityTimer (now : Nat) (s : MgrState) : MgrState :=
  { stopActivityTimer s with timer := some (now + checkInterval) }

/-- Source `clearSession()`: remove the record and stop the timer (it does not
touch the registered callback, hence never invokes it). -/
def clearSession (s : MgrState) : MgrState :=
  stopActivityTimer { s with store := none }

/-- The JavaScript comparison `now > sessionData.expiresAt`: comparing a
number against `undefined` coerces `undefined` to `NaN`, and every
comparison with `NaN` is `false`. -/
def jsGtExpiry (now : Nat) (e : Option Nat) : Bool :=
  match e with
  | none => false
  | some v => decide (now > v)

/-- Source `getSession()`: missing key or empty string yields `null` with the
store untouched; a payload whose parse throws is caught, purged and
yields `null`; a parsed record with `now > expiresAt` is purged
(`clearSession`, which also cancels the timer) and yields `null`;
otherwise the parsed record is returned as-is.  Returns the result
together with the post-state (the purge side effects). -/
def getSession (now : Nat) (s : MgrState) : Option ParsedSession × MgrState :=
  match s.store with
  | none => (none, s)
  | some .emptyStr => (none, s)
  | some .unparseable => (none, clearSession s)
  | some (.parsed d) =>
    if jsGtExpiry now d.expiresAt then (none, clearSession s)
    else (some d, s)

/-- Source `saveSession(user)`: write a fresh record with
`loginTime = lastActivity = now` and `expiresAt = now + TIMEOUT_DURATION`,
then restart the activity timer. -/
def saveSession (now : Nat) (u : JSVal) (s : MgrState) : MgrState :=
  startActivityTimer now
    { s with store := some (.parsed
        { user := u
        , loginTime := some now
        , lastActivity := some now
        , expiresAt := some (now + TIMEOUT_DURATION) }) }

/-- Source `updateActivity()`: read the session (with its lazy-purge side
effects); if absent, return; otherwise bump `lastActivity` and
`expiresAt` on the parsed object, write it back, and restart the timer. -/
def updateActivity (now : Nat) (s : MgrState) : MgrState :=
  match getSession now s with
  | (none, s1) => s1
  | (some d, s1) =>
    startActivityTimer now
      { s1 with store := some (.parsed
          { d with lastActivity := some now
                 , expiresAt := some (now + TIMEOUT_DURATION) }) }

/-- The body of the `setTimeout` callback of `startActivityTimer`,
running at its deadline `now`: the one-shot timer is no longer pending;
`getSession()` is called (purging an expired or corrupt record as a side
effect); if it returned `null` the callback returns; if the returned
record satisfies `now > expiresAt` the record is cleared and the
registered `onSessionExpired` callback is invoked; otherwise the timer
is rescheduled.  (With a single instant `now`, `getSession` returning a
record already implies `now ≤ expiresAt`, so the invocation branch is
reachable only across a mid-callback clock tick.) -/
def timerTick (now : Nat) (s : MgrState) : MgrState :=
  match getSession now (stopActivityTimer s) with
  | (none, s1) => s1
  | (some d, s1) =>
    if jsGtExpiry now d.expiresAt then
      { clearSession s1 with expiredCount := (clearSession s1).expiredCount + 1 }
    else startActivityTimer now s1

/-- Source `isLoggedIn()`: `getSession() !== null`. -/
def isLoggedIn (now : Nat) (s : MgrState) : Bool :=
  ((getSession now s).1).isSome

/-- Source `getCurrentUser()`: `session?.user || null` — the `user` field when
the session exists and the field is truthy, else `null`. -/
def getCurrentUser (now : Nat) (s : MgrState) : JSVal × MgrState :=
  let r := getSession now s
  match r.1 with
  | none => (JSVal.vnull, r.2)
  | some d => (if truthy d.user then d.user else JSVal.vnull, r.2)

/-- Source `getTimeRemaining()`: `0` when `getSession()` is `null`, otherwise
`Math.max(0, Math.floor((expiresAt - now) / 60000))`.  The JavaScript
number result is `Option Int`, `none` standing for `NaN` (which arises
when the returned record has `expiresAt` `undefined`); `Math.floor` of
an integer-valued quotient is floor division `Int.fdiv`. -/
def getTimeRemaining (now : Nat) (s : MgrState) : Option Int × MgrState :=
  let r := getSession now s
  match r.1 with
  | none => (some 0, r.2)
  | some d =>
    match d.expiresAt with
    | none => (none, r.2)
    | some e => (some (max 0 (Int.fdiv ((e : Int) - (now : Int)) 60000)), r.2)

/-- The discrete events through which the session state evolves: the
four host-facing operations plus the firing of the pending timer. -/
inductive Act where
  | save (u : JSVal)
  | update
  | getS
  | clear
  | tick
deriving DecidableEq, Repr

/-- Apply one event at instant `t`.  A `tick` is a real event only when
the pending timer's deadline is exactly `t` (the event loop fires a
one-shot timeout once, at its deadline); otherwise it is a no-op. -/
def applyAct (t : Nat) (a : Act) (s : MgrState) : MgrState :=
  match a with
  | .save u => saveSession t u s
  | .update => updateActivity t s
  | .getS => (getSession t s).2
  | .clear => clearSession s
  | .tick => match s.timer with
    | some d => if d = t then timerTick t s else s
    | none => s

/-- Run a list of timestamped events in order. -/
def runTrace (tr : List (Nat × Act)) (s : MgrState) : MgrState :=
  match tr with
  | [] => s
  | (t, a) :: rest => runTrace rest (applyAct t a s)

/-- The trace contains no timer firing. -/
def noTick : List (Nat × Act) → Bool
  | [] => true
  | (_, Act.tick) :: _ => false
  | _ :: rest => noTick rest

/-- Event timestamps are nondecreasing and bounded below by `t`. -/
def timesLB (t : Nat) : List (Nat × Act) → Bool
  | [] => true
  | (u, _) :: rest => decide (t ≤ u) && timesLB u rest

/-- Fire every pending timer whose deadline is at most `t`, in deadline
order (each firing may reschedule a later one-shot).  `fuel` bounds the
number of firings; deadlines advance by `checkInterval` per firing, so
any bounded interval needs only finitely many. -/
def fireDue (fuel t : Nat) (s : MgrState) : MgrState :=
  match fuel with
  | 0 => s
  | fuel + 1 =>
    match s.timer with
    | none => s
    | some d => if d ≤ t then fireDue fuel t (timerTick d s) else s

/-- Deterministic event-loop run of a scenario: before each host event
(and before the final observation instant `tEnd`) fire every timer
check that falls due. -/
def runScenario (fuel : Nat) (evs : List (Nat × Act)) (tEnd : Nat)
    (s : MgrState) : MgrState :=
  match evs with
  | [] => fireDue fuel tEnd s
  | (t, a) :: rest => runScenario fuel rest tEnd (applyAct t a (fireDue fuel t s))

/-! ### ActivityTracker: throttled interaction signals and API signals -/

/-- Constant `throttleDelay = 30000` — "Only update every 30 seconds". -/
def throttleDelay : Nat := 30000

/-- Source `handleActivity`, acting on the tracker state
`lastActivityTime`: forward the signal (call `trackActivity()`, i.e.
`sessionManager.updateActivity()`) and record `now` only when
`now - lastActivityTime > throttleDelay`; otherwise drop it.  Returns
(forwarded?, new `lastActivityTime`). -/
def handleActivity (now last : Nat) : Bool × Nat :=
  if now - last > throttleDelay then (true, now) else (false, last)

/-- An activity signal: a document interaction event (mousedown,
mousemove, keypress, scroll, touchstart, click — all routed through
`handleActivity`), or an axios request/response interceptor firing
(which calls `trackActivity()` directly). -/
inductive Signal where
  | interaction (t : Nat)
  | apiRequest (t : Nat)
  | apiResponse (t : Nat)
deriving DecidableEq, Repr

/-- The instant at which a signal occurs. -/
def sigTime : Signal → Nat
  | .interaction t => t
  | .apiRequest t => t
  | .apiResponse t => t

/-- The signal list consists of document interaction events only. -/
def interactionOnly : List Signal → Bool
  | [] => true
  | Signal.interaction _ :: rest => interactionOnly rest
  | Signal.apiRequest _ :: _ => false
  | Signal.apiResponse _ :: _ => false

/-- How many `updateActivity()` calls reach the `SessionManager` when a
signal list is processed from tracker state `last`: interaction events
go through `handleActivity`; both axios interceptors call
`trackActivity()` unconditionally. -/
def countUpdates (last : Nat) : List Signal → Nat
  | [] => 0
  | Signal.interaction t :: rest =>
    (if (handleActivity t last).1 then 1 else 0)
      + countUpdates (handleActivity t last).2 rest
  | Signal.apiRequest _ :: rest => 1 + countUpdates last rest
  | Signal.apiResponse _ :: rest => 1 + countUpdates last rest

/-! ### Specification-side definition for the refinement claim on
`getTimeRemaining`, and the write invariant -/

/-- Stated from the spec's words, for comparison with the code path:
"`max(0, floor((expiresAt - now) / 60000))` in whole minutes". -/
def specTimeRemaining (now e : Nat) : Int :=
  max 0 (Int.fdiv ((e : Int) - (now : Int)) 60000)

/-- Write invariant at instant `t`: every stored parsed record has all
three time fields present, with `expiresAt = lastActivity + TIMEOUT_DURATION`,
`loginTime ≤ lastActivity`, and `lastActivity ≤ t`. -/
def StoreInv (t : Nat) (s : MgrState) : Prop :=
  ∀ d : ParsedSession, s.store = some (.parsed d) →
    ∃ l m : Nat, d.loginTime = some l ∧ d.lastActivity = some m ∧
      d.expiresAt = some (m + TIMEOUT_DURATION) ∧ l ≤ m ∧ m ≤ t

/-! ### Concrete states used by witnesses and counterexamples -/

/-- A well-formed record written at t = 0. -/
def c1Rec : ParsedSession :=
  { user := .vobj 1, loginTime := some 0, lastActivity := some 0
  , expiresAt := some 900000 }

/-- A state holding `c1Rec` with the poll timer pending. -/
def c1State : MgrState :=
  { store := some (.parsed c1Rec), timer := some 60000, expiredCount := 0 }

/-- A parseable record with `expiresAt` absent (`undefined`). -/
def c2Rec : ParsedSession :=
  { user := .vobj 7, loginTime := some 0, lastActivity := some 0
  , expiresAt := none }

/-- A state holding the record that misses `expiresAt`. -/
def c2State : MgrState :=
  { store := some (.parsed c2Rec), timer := none, expiredCount := 0 }

/-- A state whose stored payload throws on parse. -/
def c2BadState : MgrState :=
  { store := some .unparseable, timer := some 5, expiredCount := 0 }

/-- A state whose stored payload is the empty string. -/
def c2EmptyState : MgrState :=
  { store := some .emptyStr, timer := none, expiredCount := 0 }

/-- The host-event prefix of the spec's timeout scenario: login at t = 0,
activity renewal at t = 500000. -/
def c4Events : List (Nat × Act) :=
  [(0, Act.save (JSVal.vobj 1)), (500000, Act.update)]

/-- The machine state at t = 1450000 in the scenario: the events of
`c4Events` interleaved with every timer check that falls due. -/
def c4Pre : MgrState := runScenario 30 c4Events 1450000 initState

/-- The record produced by `saveSession` at t = 5 on the empty state. -/
def c6Rec : ParsedSession :=
  { user := JSVal.vobj 0, loginTime := some 5, lastActivity := some 5
  , expiresAt := some 900005 }

/-- A well-formed record written at t = 0, user `vobj 2`. -/
def c8Rec : ParsedSession :=
  { user := .vobj 2, loginTime := some 0, lastActivity := some 0
  , expiresAt := some 900000 }

/-- A state holding `c8Rec` with the poll timer pending. -/
def c8State : MgrState :=
  { store := some (.parsed c8Rec), timer := some 60000, expiredCount := 0 }

/-- A valid record whose `user` field is the falsy number `0`. -/
def c9Rec : ParsedSession :=
  { user := .vnum 0, loginTime := some 0, lastActivity := some 0
  , expiresAt := some 900000 }

/-- A state holding the falsy-user record `c9Rec`. -/
def c9State : MgrState :=
  { store := some (.parsed c9Rec), timer := some 60000, expiredCount := 0 }

/-- A valid record whose `user` field is a truthy string. -/
def c9TruthyRec : ParsedSession :=
  { user := .vstr "alice", loginTime := some 0, lastActivity := some 0
  , expiresAt := some 900000 }

/-- A state holding the truthy-user record `c9TruthyRec`. -/
def c9TruthyState : MgrState :=
  { store := some (.parsed c9TruthyRec), timer := none, expiredCount := 0 }

/-! ### Helper lemmas on the read path -/

/-- The post-state of a read is either the pre-state or the cleared one. -/
theorem getSession_snd (now : Nat) (s : MgrState) :
    (getSession now s).2 = s ∨ (getSession now s).2 = clearSession s := by
  unfold getSession
  split
  · exact Or.inl rfl
  · exact Or.inl rfl
  · exact Or.inr rfl
  · split
    · exact Or.inr rfl
    · exact Or.inl rfl

/-- Reading never invokes the expiration callback. -/
theorem getSession_expiredCount (now : Nat) (s : MgrState) :
    ((getSession now s).2).expiredCount = s.expiredCount := by
  rcases getSession_snd now s with h | h <;> simp [h, clearSession, stopActivityTimer]

/-- The store after a read is the old store or empty. -/
theorem getSession_store (now : Nat) (s : MgrState) :
    ((getSession now s).2).store = s.store ∨ ((getSession now s).2).store = none := by
  rcases getSession_snd now s with h | h <;> rw [h]
  · exact Or.inl rfl
  · exact Or.inr rfl

/-- A returned session is exactly the stored parsed record. -/
theorem getSession_fst_some (now : Nat) (s : MgrState) (d : ParsedSession)
    (h : (getSession now s).1 = some d) : s.store = some (.parsed d) := by
  unfold getSession at h
  cases hs : s.store with
  | none => rw [hs] at h; simp at h
  | some p =>
    rw [hs] at h
    cases p with
    | emptyStr => simp at h
    | unparseable => simp at h
    | parsed d2 =>
      have h2 : (if jsGtExpiry now d2.expiresAt = true
          then ((none : Option ParsedSession), clearSession s)
          else (some d2, s)).1 = some d := h
      split at h2
      · simp at h2
      · exact congrArg (fun x => some (StoredPayload.parsed x)) (Option.some.inj h2)

/-- Reduction of a read on a stored record that fails the expiry test. -/
theorem getSession_parsed_true (now : Nat) (s : MgrState) (d : ParsedSession)
    (hs : s.store = some (.parsed d)) (hgt : jsGtExpiry now d.expiresAt = true) :
    getSession now s = (none, clearSession s) := by
  unfold getSession
  rw [hs]
  show (if jsGtExpiry now d.expiresAt = true
      then ((none : Option ParsedSession), clearSession s)
      else (some d, s)) = (none, clearSession s)
  rw [hgt]
  simp

/-- Reduction of a read on a stored record that passes the expiry test. -/
theorem getSession_parsed_false (now : Nat) (s : MgrState) (d : ParsedSession)
    (hs : s.store = some (.parsed d)) (hgt : jsGtExpiry now d.expiresAt = false) :
    getSession now s = (some d, s) := by
  unfold getSession
  rw [hs]
  show (if jsGtExpiry now d.expiresAt = true
      then ((none : Option ParsedSession), clearSession s)
      else (some d, s)) = (some d, s)
  rw [hgt]
  simp

/-- Renewal never invokes the expiration callback. -/
theorem updateActivity_expiredCount (now : Nat) (s : MgrState) :
    (updateActivity now s).expiredCount = s.expiredCount := by
  have hc := getSession_expiredCount now s
  unfold updateActivity
  rcases hg : getSession now s with ⟨r, s1⟩
  rw [hg] at hc
  cases r with
  | none => exact hc
  | some d => exact hc

/-! ### Claims on the read path: C1, C2, C10 -/

/-- Claim C1: for every store state holding a serialized record whose
`expiresAt` is strictly in the past at the instant of the call,
`getSession()` returns absent and, as a side effect, leaves the store
with no record under the session key (lazy expiry purge). -/
theorem C1_expired_read_purges (now : Nat) (s : MgrState) (d : ParsedSession)
    (e : Nat) (hs : s.store = some (.parsed d)) (he : d.expiresAt = some e)
    (hlt : e < now) :
    (getSession now s).1 = none ∧ ((getSession now s).2).store = none := by
  have hgt : jsGtExpiry now d.expiresAt = true := by
    simp [jsGtExpiry, he, hlt]
  rw [getSession_parsed_true now s d hs hgt]
  exact ⟨rfl, rfl⟩

/-- Witness for C1 at a concrete expired state. -/
theorem C1_expired_read_purges_w :
    (getSession 900001 c1State).1 = none ∧
    ((getSession 900001 c1State).2).store = none :=
  C1_expired_read_purges 900001 c1State c1Rec 900000 rfl rfl (by decide)

/-- Counterexample to claim C2 as stated: a parseable record missing
`expiresAt` is NOT treated as absent — `now > undefined` is `false` in
JavaScript, so `getSession()` returns the record and does not purge it. -/
theorem C2_missing_expiry_not_purged :
    (getSession 1000000 c2State).1 = some c2Rec ∧
    ((getSession 1000000 c2State).2).store = some (.parsed c2Rec) := by decide

/-- Claim C2 (amended): a stored payload whose parse throws is caught:
`getSession()` returns absent and purges; an empty stored string yields
absent but is NOT purged (the falsy early return precedes the purge
path); a parseable record missing `expiresAt` is returned as a session
and left in the store.  No case throws to the caller (the embedding is
a total function). -/
theorem C2_corruption_behavior :
    (∀ (now : Nat) (s : MgrState), s.store = some .unparseable →
      (getSession now s).1 = none ∧ ((getSession now s).2).store = none) ∧
    (∀ (now : Nat) (s : MgrState), s.store = some .emptyStr →
      (getSession now s).1 = none ∧ ((getSession now s).2).store = some .emptyStr) ∧
    (∀ (now : Nat) (s : MgrState) (d : ParsedSession),
      s.store = some (.parsed d) → d.expiresAt = none →
      (getSession now s).1 = some d ∧ ((getSession now s).2).store = s.store) := by
  refine ⟨?_, ?_, ?_⟩
  · intro now s hs
    unfold getSession
    rw [hs]
    exact ⟨rfl, rfl⟩
  · intro now s hs
    unfold getSession
    rw [hs]
    exact ⟨rfl, hs.symm ▸ rfl⟩
  · intro now s d hs he
    have hgt : jsGtExpiry now d.expiresAt = false := by
      simp [jsGtExpiry, he]
    rw [getSession_parsed_false now s d hs hgt]
    exact ⟨rfl, rfl⟩

/-- Witness for the amended C2 at concrete corrupt states. -/
theorem C2_corruption_behavior_w :
    ((getSession 50 c2BadState).1 = none ∧
     ((getSession 50 c2BadState).2).store = none) ∧
    ((getSession 50 c2EmptyState).1 = none ∧
     ((getSession 50 c2EmptyState).2).store = some .emptyStr) ∧
    ((getSession 50 c2State).1 = some c2Rec ∧
     ((getSession 50 c2State).2).store = c2State.store) :=
  ⟨C2_corruption_behavior.1 50 c2BadState rfl,
   C2_corruption_behavior.2.1 50 c2EmptyState rfl,
   C2_corruption_behavior.2.2 50 c2State c2Rec rfl rfl⟩

/-- Claim C10: `updateActivity()` never resurrects an expired session.
On a store holding a record with `expiresAt` strictly in the past the
renewal degenerates into a purge: the record is removed, no renewed
record is written, no timer is left pending, and the callback count is
unchanged. -/
theorem C10_no_resurrection (now : Nat) (s : MgrState) (d : ParsedSession)
    (e : Nat) (hs : s.store = some (.parsed d)) (he : d.expiresAt = some e)
    (hlt : e < now) :
    updateActivity now s =
      { store := none, timer := none, expiredCount := s.expiredCount } := by
  have hgt : jsGtExpiry now d.expiresAt = true := by
    simp [jsGtExpiry, he, hlt]
  unfold updateActivity
  rw [getSession_parsed_true now s d hs hgt]
  rfl

/-- Witness for C10 at a concrete expired state with a pending timer. -/
theorem C10_no_resurrection_w :
    updateActivity 900001 c1State =
      { store := none, timer := none, expiredCount := 0 } :=
  C10_no_resurrection 900001 c1State c1Rec 900000 rfl rfl (by decide)

/-- Reduction of a renewal on a stored record that passes the expiry
test: bump `lastActivity` and `expiresAt`, write back, restart timer. -/
theorem updateActivity_valid (now : Nat) (s : MgrState) (d : ParsedSession)
    (hs : s.store = some (.parsed d)) (hgt : jsGtExpiry now d.expiresAt = false) :
    updateActivity now s = startActivityTimer now
      { s with store := some (.parsed
          { d with
              lastActivity := some now,
              expiresAt := some (now + TIMEOUT_DURATION) }) } := by
  unfold updateActivity
  rw [getSession_parsed_false now s d hs hgt]

/-- Claim C7: renewal is idempotent at a fixed instant — on a state with
a valid stored record, two `updateActivity()` calls in the same
millisecond leave the same stored record (hence the same `expiresAt`)
as one call. -/
theorem C7_renewal_idempotent (now : Nat) (s : MgrState) (d : ParsedSession)
    (e : Nat) (hs : s.store = some (.parsed d)) (he : d.expiresAt = some e)
    (hle : now ≤ e) :
    (updateActivity now (updateActivity now s)).store
      = (updateActivity now s).store := by
  have hgt : jsGtExpiry now d.expiresAt = false := by
    rw [he]
    simp only [jsGtExpiry, decide_eq_false_iff_not]
    omega
  have h1 := updateActivity_valid now s d hs hgt
  have h2 := updateActivity_valid now (updateActivity now s)
      { d with
          lastActivity := some now,
          expiresAt := some (now + TIMEOUT_DURATION) }
      (by rw [h1]; rfl)
      (by simp only [jsGtExpiry, decide_eq_false_iff_not]; omega)
  rw [h2, h1]
  rfl

/-- Witness for C7 at a concrete valid state. -/
theorem C7_renewal_idempotent_w :
    (updateActivity 300000 (updateActivity 300000 c8State)).store
      = (updateActivity 300000 c8State).store :=
  C7_renewal_idempotent 300000 c8State c8Rec 900000 rfl rfl (by decide)

/-- Claim C8: `getTimeRemaining()` equals the spec formula
`max(0, floor((expiresAt - now) / 60000))` whenever a valid record
exists, and returns `0` when no session exists, including when the
stored record is expired (in which case the read also purges it). -/
theorem C8_time_remaining :
    (∀ (now : Nat) (s : MgrState) (d : ParsedSession) (e : Nat),
      s.store = some (.parsed d) → d.expiresAt = some e → now ≤ e →
      (getTimeRemaining now s).1 = some (specTimeRemaining now e)) ∧
    (∀ (now : Nat) (s : MgrState), s.store = none →
      (getTimeRemaining now s).1 = some 0) ∧
    (∀ (now : Nat) (s : MgrState) (d : ParsedSession) (e : Nat),
      s.store = some (.parsed d) → d.expiresAt = some e → e < now →
      (getTimeRemaining now s).1 = some 0 ∧
      ((getTimeRemaining now s).2).store = none) := by
  refine ⟨?_, ?_, ?_⟩
  · intro now s d e hs he hle
    have hgt : jsGtExpiry now d.expiresAt = false := by
      rw [he]
      simp only [jsGtExpiry, decide_eq_false_iff_not]
      omega
    simp [getTimeRemaining, getSession_parsed_false now s d hs hgt, he,
      specTimeRemaining]
  · intro now s hs
    simp [getTimeRemaining, getSession, hs]
  · intro now s d e hs he hlt
    have hgt : jsGtExpiry now d.expiresAt = true := by
      simp [jsGtExpiry, he, hlt]
    refine ⟨?_, ?_⟩ <;>
      simp [getTimeRemaining, getSession_parsed_true now s d hs hgt,
        clearSession, stopActivityTimer]

/-- Witness for C8: a valid record ten minutes before expiry, the empty
store, and an expired record. -/
theorem C8_time_remaining_w :
    ((getTimeRemaining 300000 c8State).1
        = some (specTimeRemaining 300000 900000)) ∧
    ((getTimeRemaining 7 initState).1 = some 0) ∧
    ((getTimeRemaining 900001 c8State).1 = some 0 ∧
     ((getTimeRemaining 900001 c8State).2).store = none) :=
  ⟨C8_time_remaining.1 300000 c8State c8Rec 900000 rfl rfl (by decide),
   C8_time_remaining.2.1 7 initState rfl,
   C8_time_remaining.2.2 900001 c8State c8Rec 900000 rfl rfl (by decide)⟩

/-- Counterexample to claim C9 as stated: on a valid record whose `user`
field is the falsy value `0`, `getCurrentUser()` returns `null`, not the
`user` field — `session?.user || null` discards falsy users. -/
theorem C9_falsy_user_lost :
    (getSession 10 c9State).1 = some c9Rec ∧
    c9Rec.user = JSVal.vnum 0 ∧
    (getCurrentUser 10 c9State).1 = JSVal.vnull ∧
    JSVal.vnum 0 ≠ JSVal.vnull := by decide

/-- Claim C9 (amended): for a valid stored record, `getCurrentUser()`
returns the record's `user` field when that field is truthy and `null`
when it is falsy (`0`, `""`, `false`, `null`, `undefined`); it also
returns `null` when no valid record exists. -/
theorem C9_user_of_valid_record :
    (∀ (now : Nat) (s : MgrState) (d : ParsedSession),
      (getSession now s).1 = some d → truthy d.user = true →
      (getCurrentUser now s).1 = d.user) ∧
    (∀ (now : Nat) (s : MgrState) (d : ParsedSession),
      (getSession now s).1 = some d → truthy d.user = false →
      (getCurrentUser now s).1 = JSVal.vnull) ∧
    (∀ (now : Nat) (s : MgrState), (getSession now s).1 = none →
      (getCurrentUser now s).1 = JSVal.vnull) := by
  refine ⟨?_, ?_, ?_⟩
  · intro now s d hg ht
    simp [getCurrentUser, hg, ht]
  · intro now s d hg ht
    simp [getCurrentUser, hg, ht]
  · intro now s hg
    simp [getCurrentUser, hg]

/-- Witness for the amended C9: a truthy user, the falsy user `0`, and
the empty store. -/
theorem C9_user_of_valid_record_w :
    ((getCurrentUser 10 c9TruthyState).1 = c9TruthyRec.user) ∧
    ((getCurrentUser 10 c9State).1 = JSVal.vnull) ∧
    ((getCurrentUser 10 initState).1 = JSVal.vnull) :=
  ⟨C9_user_of_valid_record.1 10 c9TruthyState c9TruthyRec (by decide) (by decide),
   C9_user_of_valid_record.2.1 10 c9State c9Rec (by decide) (by decide),
   C9_user_of_valid_record.2.2 10 initState rfl⟩

/-! ### Claim C3: the callback fires only on timer events -/

/-- Every non-tick event preserves the callback-invocation count. -/
theorem applyAct_expiredCount (t : Nat) (a : Act) (s : MgrState)
    (ha : a ≠ Act.tick) : (applyAct t a s).expiredCount = s.expiredCount := by
  cases a with
  | save u => rfl
  | update => exact updateActivity_expiredCount t s
  | getS => exact getSession_expiredCount t s
  | clear => rfl
  | tick => exact absurd rfl ha

/-- A trace with no timer firing preserves the callback count. -/
theorem runTrace_expiredCount (tr : List (Nat × Act)) (s : MgrState)
    (h : noTick tr = true) : (runTrace tr s).expiredCount = s.expiredCount := by
  induction tr generalizing s with
  | nil => rfl
  | cons p rest ih =>
    rcases p with ⟨t, a⟩
    rw [runTrace]
    cases a with
    | tick => simp [noTick] at h
    | save u =>
      rw [ih (applyAct t (Act.save u) s) (by simpa [noTick] using h)]
      rfl
    | update =>
      rw [ih (applyAct t Act.update s) (by simpa [noTick] using h)]
      exact updateActivity_expiredCount t s
    | getS =>
      rw [ih (applyAct t Act.getS s) (by simpa [noTick] using h)]
      exact getSession_expiredCount t s
    | clear =>
      rw [ih (applyAct t Act.clear s) (by simpa [noTick] using h)]
      rfl

/-- Claim C3: the expiration callback is invoked only on timeout-driven
clears — in every execution trace without a timer firing (in particular
across any explicit `clearSession()` call) the callback count is
unchanged; and `saveSession(u)` immediately followed by `clearSession()`
leaves `isLoggedIn()` false with zero callback invocations. -/
theorem C3_callback_only_on_timeout :
    (∀ (tr : List (Nat × Act)) (s : MgrState), noTick tr = true →
      (runTrace tr s).expiredCount = s.expiredCount) ∧
    (∀ (t1 t2 tq : Nat) (u : JSVal),
      isLoggedIn tq (runTrace [(t1, Act.save u), (t2, Act.clear)] initState)
          = false ∧
      (runTrace [(t1, Act.save u), (t2, Act.clear)] initState).expiredCount
          = 0) := by
  constructor
  · exact fun tr s h => runTrace_expiredCount tr s h
  · intro t1 t2 tq u
    exact ⟨rfl, rfl⟩

/-- Witness for C3: a concrete tick-free trace, and the concrete
save-then-clear scenario. -/
theorem C3_callback_only_on_timeout_w :
    (noTick [(1, Act.save (JSVal.vobj 3)), (2, Act.update), (3, Act.clear)]
        = true ∧
     (runTrace [(1, Act.save (JSVal.vobj 3)), (2, Act.update), (3, Act.clear)]
        initState).expiredCount = initState.expiredCount) ∧
    (isLoggedIn 5 (runTrace [(1, Act.save (JSVal.vobj 3)), (4, Act.clear)]
        initState) = false ∧
     (runTrace [(1, Act.save (JSVal.vobj 3)), (4, Act.clear)]
        initState).expiredCount = 0) :=
  ⟨⟨by decide,
    C3_callback_only_on_timeout.1
      [(1, Act.save (JSVal.vobj 3)), (2, Act.update), (3, Act.clear)]
      initState (by decide)⟩,
   C3_callback_only_on_timeout.2 1 4 5 (JSVal.vobj 3)⟩

/-! ### Claim C6: the write invariant -/

/-- The write invariant is monotone in the time bound. -/
theorem storeInv_mono (t1 t2 : Nat) (s : MgrState) (h12 : t1 ≤ t2)
    (h : StoreInv t1 s) : StoreInv t2 s := by
  intro d hd
  obtain ⟨l, m, a1, a2, a3, a4, a5⟩ := h d hd
  exact ⟨l, m, a1, a2, a3, a4, le_trans a5 h12⟩

/-- The write invariant transfers to a state whose store is the same or
empty. -/
theorem storeInv_of_store_eq (t : Nat) (s2 s1 : MgrState)
    (h : s2.store = s1.store ∨ s2.store = none) (hInv : StoreInv t s1) :
    StoreInv t s2 := by
  intro d hd
  rcases h with h | h
  · exact hInv d (h.symm.trans hd)
  · rw [h] at hd
    exact absurd hd (by simp)

/-- A timer firing leaves the store unchanged or empty. -/
theorem timerTick_store (now : Nat) (s : MgrState) :
    (timerTick now s).store = s.store ∨ (timerTick now s).store = none := by
  have h0 := getSession_snd now (stopActivityTimer s)
  unfold timerTick
  rcases hg : getSession now (stopActivityTimer s) with ⟨r, s1⟩
  rw [hg] at h0
  cases r with
  | none =>
    rcases h0 with h | h
    · exact Or.inl (by
        show s1.store = s.store
        rw [show s1 = stopActivityTimer s from h]
        rfl)
    · exact Or.inr (by
        show s1.store = none
        rw [show s1 = clearSession (stopActivityTimer s) from h]
        rfl)
  | some d =>
    show ((if jsGtExpiry now d.expiresAt = true
        then { clearSession s1 with
                 expiredCount := (clearSession s1).expiredCount + 1 }
        else startActivityTimer now s1)).store = s.store ∨
      ((if jsGtExpiry now d.expiresAt = true
        then { clearSession s1 with
                 expiredCount := (clearSession s1).expiredCount + 1 }
        else startActivityTimer now s1)).store = none
    split
    · exact Or.inr rfl
    · rcases h0 with h | h
      · exact Or.inl (by
          show s1.store = s.store
          rw [show s1 = stopActivityTimer s from h]
          rfl)
      · exact Or.inr (by
          show s1.store = none
          rw [show s1 = clearSession (stopActivityTimer s) from h]
          rfl)

/-- Renewal preserves the write invariant at any later instant. -/
theorem updateActivity_storeInv (t1 t : Nat) (s : MgrState)
    (h : StoreInv t1 s) (h12 : t1 ≤ t) : StoreInv t (updateActivity t s) := by
  cases hs : s.store with
  | none =>
    have hr : getSession t s = (none, s) := by
      unfold getSession
      rw [hs]
    unfold updateActivity
    rw [hr]
    exact storeInv_mono t1 t s h12 h
  | some p =>
    cases p with
    | emptyStr =>
      have hr : getSession t s = (none, s) := by
        unfold getSession
        rw [hs]
      unfold updateActivity
      rw [hr]
      exact storeInv_mono t1 t s h12 h
    | unparseable =>
      have hr : getSession t s = (none, clearSession s) := by
        unfold getSession
        rw [hs]
      unfold updateActivity
      rw [hr]
      intro d hd
      exact absurd hd (by simp [clearSession, stopActivityTimer])
    | parsed d0 =>
      cases hgt : jsGtExpiry t d0.expiresAt with
      | true =>
        unfold updateActivity
        rw [getSession_parsed_true t s d0 hs hgt]
        intro d hd
        exact absurd hd (by simp [clearSession, stopActivityTimer])
      | false =>
        rw [updateActivity_valid t s d0 hs hgt]
        intro d hd
        obtain ⟨l, m, a1, a2, a3, a4, a5⟩ := h d0 hs
        have hinj : StoredPayload.parsed
            { d0 with
                lastActivity := some t,
                expiresAt := some (t + TIMEOUT_DURATION) }
              = StoredPayload.parsed d := Option.some.inj hd
        injection hinj with hde
        subst hde
        exact ⟨l, t, a1, rfl, rfl, le_trans a4 (le_trans a5 h12), le_refl t⟩

/-- Every event preserves the write invariant at any later instant. -/
theorem applyAct_storeInv (t1 t : Nat) (a : Act) (s : MgrState)
    (h12 : t1 ≤ t) (h : StoreInv t1 s) : StoreInv t (applyAct t a s) := by
  have hmono : StoreInv t s := storeInv_mono t1 t s h12 h
  cases a with
  | save u =>
    intro d hd
    have hinj : StoredPayload.parsed
        { user := u, loginTime := some t, lastActivity := some t
        , expiresAt := some (t + TIMEOUT_DURATION) }
          = StoredPayload.parsed d := Option.some.inj hd
    injection hinj with hde
    subst hde
    exact ⟨t, t, rfl, rfl, rfl, le_refl t, le_refl t⟩
  | update => exact updateActivity_storeInv t1 t s h h12
  | getS => exact storeInv_of_store_eq t _ s (getSession_store t s) hmono
  | clear =>
    intro d hd
    exact absurd hd (by simp [applyAct, clearSession, stopActivityTimer])
  | tick =>
    show StoreInv t (match s.timer with
      | some dl => if dl = t then timerTick t s else s
      | none => s)
    cases ht : s.timer with
    | none => exact hmono
    | some dl =>
      show StoreInv t (if dl = t then timerTick t s else s)
      by_cases hdl : dl = t
      · rw [if_pos hdl]
        exact storeInv_of_store_eq t _ s (timerTick_store t s) hmono
      · rw [if_neg hdl]
        exact hmono

/-- Along any trace with nondecreasing timestamps the write invariant
holds at some instant. -/
theorem runTrace_storeInv (tr : List (Nat × Act)) (t : Nat) (s : MgrState)
    (hlb : timesLB t tr = true) (h : StoreInv t s) :
    ∃ t2 : Nat, StoreInv t2 (runTrace tr s) := by
  induction tr generalizing t s with
  | nil => exact ⟨t, h⟩
  | cons p rest ih =>
    rcases p with ⟨u, a⟩
    simp only [timesLB, Bool.and_eq_true, decide_eq_true_eq] at hlb
    exact ih u (applyAct u a s) hlb.2 (applyAct_storeInv t u a s hlb.1 h)

/-- Claim C6: in every execution from the empty state (in particular,
immediately after every write by `saveSession` or `updateActivity`), any
stored record satisfies `expiresAt = lastActivity + TIMEOUT_DURATION`
and `loginTime ≤ lastActivity ≤ expiresAt`. -/
theorem C6_write_invariant (tr : List (Nat × Act)) (d : ParsedSession)
    (hlb : timesLB 0 tr = true)
    (hd : (runTrace tr initState).store = some (.parsed d)) :
    ∃ l m : Nat, d.loginTime = some l ∧ d.lastActivity = some m ∧
      d.expiresAt = some (m + TIMEOUT_DURATION) ∧ l ≤ m ∧
      m ≤ m + TIMEOUT_DURATION := by
  have h0 : StoreInv 0 initState := by
    intro d0 hd0
    exact absurd hd0 (by simp [initState])
  obtain ⟨t2, hInv⟩ := runTrace_storeInv tr 0 initState hlb h0
  obtain ⟨l, m, a1, a2, a3, a4, _⟩ := hInv d hd
  exact ⟨l, m, a1, a2, a3, a4, Nat.le_add_right m TIMEOUT_DURATION⟩

/-- Witness for C6 on the one-event trace that logs in at t = 5. -/
theorem C6_write_invariant_w :
    timesLB 0 [(5, Act.save (JSVal.vobj 0))] = true ∧
    (∃ l m : Nat, c6Rec.loginTime = some l ∧ c6Rec.lastActivity = some m ∧
      c6Rec.expiresAt = some (m + TIMEOUT_DURATION) ∧ l ≤ m ∧
      m ≤ m + TIMEOUT_DURATION) :=
  ⟨by decide,
   C6_write_invariant [(5, Act.save (JSVal.vobj 0))] c6Rec
     (by decide) (by decide)⟩

/-! ### Claim C4: the spec's timeout scenario -/

/-- With no timer pending, nothing ever fires. -/
theorem fireDue_noTimer (fuel t : Nat) (s : MgrState) (h : s.timer = none) :
    fireDue fuel t s = s := by
  cases fuel with
  | zero => rfl
  | succ n =>
    unfold fireDue
    rw [h]

/-- Counterexample to claim C4 as stated: in the scenario
`saveSession({id:1})` at t = 0, `updateActivity()` at t = 500000 (giving
`expiresAt = 1400000`), timer checks firing on schedule and no further
activity, the `getSession()` call at t = 1450000 returns absent — but
the expiry callback has fired zero times, not once, and the read-time
purge has cancelled the pending timer check (which was due at
t = 1460000). -/
theorem C4_callback_never_fires :
    c4Pre.store = some (.parsed
      { user := JSVal.vobj 1, loginTime := some 0
      , lastActivity := some 500000, expiresAt := some 1400000 }) ∧
    c4Pre.timer = some 1460000 ∧
    (getSession 1450000 c4Pre).1 = none ∧
    ((getSession 1450000 c4Pre).2).expiredCount = 0 ∧
    ¬ ((getSession 1450000 c4Pre).2).expiredCount = 1 := by decide

/-- Claim C4 (amended): in that scenario the `getSession()` call at
t = 1450000 returns absent, purges the record, cancels the pending
timer, and the registered expiry callback never fires — neither before
the read (the checks at t ≤ 1400000 all saw a live session) nor after
it (no timer remains pending, so no amount of further firing changes
the state). -/
theorem C4_scenario_behavior :
    (getSession 1450000 c4Pre).1 = none ∧
    ((getSession 1450000 c4Pre).2).store = none ∧
    ((getSession 1450000 c4Pre).2).timer = none ∧
    ((getSession 1450000 c4Pre).2).expiredCount = 0 ∧
    (∀ fuel tEnd : Nat,
      fireDue fuel tEnd ((getSession 1450000 c4Pre).2)
        = (getSession 1450000 c4Pre).2) := by
  refine ⟨by decide, by decide, by decide, by decide, ?_⟩
  intro fuel tEnd
  exact fireDue_noTimer fuel tEnd _ (by decide)

/-! ### Claim C5: the activity throttle -/

/-- Interaction signals at or before `last + throttleDelay` are all
dropped and leave the tracker state unchanged. -/
theorem countUpdates_dropped (sigs : List Signal) (last : Nat)
    (hint : interactionOnly sigs = true)
    (hub : ∀ sg ∈ sigs, sigTime sg ≤ last + throttleDelay) :
    countUpdates last sigs = 0 := by
  induction sigs with
  | nil => rfl
  | cons sg rest ih =>
    cases sg with
    | interaction t =>
      have ht : t ≤ last + throttleDelay := by
        have hm := hub (Signal.interaction t) (by simp)
        simpa [sigTime] using hm
      have hno : handleActivity t last = (false, last) := by
        unfold handleActivity
        rw [if_neg (by omega)]
      have hred : countUpdates last (Signal.interaction t :: rest)
          = (if (handleActivity t last).1 then 1 else 0)
            + countUpdates (handleActivity t last).2 rest := rfl
      rw [hred, hno]
      simp only [if_false, Bool.false_eq_true, Nat.zero_add]
      exact ih (by simpa [interactionOnly] using hint)
        (fun sg hsg => hub sg (List.mem_cons_of_mem _ hsg))
    | apiRequest t => simp [interactionOnly] at hint
    | apiResponse t => simp [interactionOnly] at hint

/-- Interaction-only signal bursts inside a window shorter than the
throttle interval forward at most one renewal, from any tracker state. -/
theorem countUpdates_throttle (sigs : List Signal) (last a b : Nat)
    (hint : interactionOnly sigs = true)
    (hwin : ∀ sg ∈ sigs, a ≤ sigTime sg ∧ sigTime sg ≤ b)
    (hlt : b < a + throttleDelay) :
    countUpdates last sigs ≤ 1 := by
  induction sigs generalizing last with
  | nil => exact Nat.zero_le 1
  | cons sg rest ih =>
    have hib : interactionOnly rest = true := by
      cases sg with
      | interaction t => simpa [interactionOnly] using hint
      | apiRequest t => simp [interactionOnly] at hint
      | apiResponse t => simp [interactionOnly] at hint
    have hwr : ∀ sg ∈ rest, a ≤ sigTime sg ∧ sigTime sg ≤ b :=
      fun sg h => hwin sg (List.mem_cons_of_mem _ h)
    cases sg with
    | interaction t =>
      have hta : a ≤ t := by
        have hm := (hwin (Signal.interaction t) (by simp)).1
        simpa [sigTime] using hm
      by_cases hc : t - last > throttleDelay
      · have hfwd : handleActivity t last = (true, t) := by
          unfold handleActivity
          rw [if_pos hc]
        have hdrop : countUpdates t rest = 0 := by
          refine countUpdates_dropped rest t hib ?_
          intro sg hsg
          have hb := (hwr sg hsg).2
          omega
        have hred : countUpdates last (Signal.interaction t :: rest)
            = (if (handleActivity t last).1 then 1 else 0)
              + countUpdates (handleActivity t last).2 rest := rfl
        rw [hred, hfwd]
        simp [hdrop]
      · have hfwd : handleActivity t last = (false, last) := by
          unfold handleActivity
          rw [if_neg hc]
        have hred : countUpdates last (Signal.interaction t :: rest)
            = (if (handleActivity t last).1 then 1 else 0)
              + countUpdates (handleActivity t last).2 rest := rfl
        rw [hred, hfwd]
        simp only [if_false, Bool.false_eq_true, Nat.zero_add]
        exact ih last hib hwr
    | apiRequest t => simp [interactionOnly] at hint
    | apiResponse t => simp [interactionOnly] at hint

/-- Counterexample to claim C5 as stated: two API signals one
millisecond apart — a window far smaller than 30 seconds — produce TWO
`updateActivity()` calls, because the axios interceptors call
`trackActivity()` without consulting the throttle. -/
theorem C5_api_signals_bypass_throttle :
    (∀ sg ∈ [Signal.apiRequest 100000, Signal.apiResponse 100001],
      100000 ≤ sigTime sg ∧ sigTime sg ≤ 100001) ∧
    100001 < 100000 + throttleDelay ∧
    countUpdates 0 [Signal.apiRequest 100000, Signal.apiResponse 100001]
      = 2 := by decide

/-- Claim C5 (amended): for document interaction events the throttle
bound holds — any number of interaction signals inside a window smaller
than 30 seconds forwards at most one `updateActivity()` call, whatever
the tracker state — but API request/response signals bypass the
throttle: each one reaches the SessionManager unconditionally. -/
theorem C5_throttle_bound :
    (∀ (sigs : List Signal) (last a b : Nat),
      interactionOnly sigs = true →
      (∀ sg ∈ sigs, a ≤ sigTime sg ∧ sigTime sg ≤ b) →
      b < a + throttleDelay →
      countUpdates last sigs ≤ 1) ∧
    (∀ (last t : Nat) (rest : List Signal),
      countUpdates last (Signal.apiRequest t :: rest)
          = 1 + countUpdates last rest ∧
      countUpdates last (Signal.apiResponse t :: rest)
          = 1 + countUpdates last rest) := by
  constructor
  · exact fun sigs last a b h1 h2 h3 =>
      countUpdates_throttle sigs last a b h1 h2 h3
  · exact fun last t rest => ⟨rfl, rfl⟩

/-- Witness for the amended C5: a concrete two-signal interaction burst
inside a 5 ms window, and a concrete API signal. -/
theorem C5_throttle_bound_w :
    (interactionOnly [Signal.interaction 100000, Signal.interaction 100005]
        = true ∧
     (∀ sg ∈ [Signal.interaction 100000, Signal.interaction 100005],
        100000 ≤ sigTime sg ∧ sigTime sg ≤ 100005) ∧
     100005 < 100000 + throttleDelay ∧
     countUpdates 0 [Signal.interaction 100000, Signal.interaction 100005]
        ≤ 1) ∧
    countUpdates 3 [Signal.apiRequest 9] = 1 + countUpdates 3 [] :=
  ⟨⟨by decide, by decide, by decide,
    C5_throttle_bound.1 [Signal.interaction 100000, Signal.interaction 100005]
      0 100000 100005 (by decide) (by decide) (by decide)⟩,
   (C5_throttle_bound.2 3 9 []).1⟩

end SessionMgr
